import Mathlib

/-!
Verification of the hybrid retrieval and answer-orchestration engine
(`llama-rag-engine`): a shallow embedding of the core Python modules
(`vector_store.py`, `hybrid_retrieval.py`, `query_expander.py`,
`rag_engine.py`, `ollama_client.py`) as executable Lean definitions,
followed by theorems settling the specification claims.

Scores and temperatures are modelled as rationals (`ℚ`); documents,
queries and metadata records as strings; the external collaborators
(embedding model, vector database, BM25 scorer, tokenizer, inference
backend, grader) as function parameters, mirroring the spec's
"external collaborator" boundary.
-/

namespace LlamaRag

/-! ## VectorStore (src/core/vector/vector_store.py)

The Redis cache is an association list from key to the cached, already
formatted result list; `setex` prepends (the lookup takes the first
binding, so prepending has overwrite semantics).  A cache entry being
present models "within the TTL window". -/

structure SearchResult where
  document : String
  meta : String
  score : ℚ
deriving Repr, DecidableEq

structure CacheState where
  entries : List (String × List SearchResult)
deriving Repr, DecidableEq

def cacheGet (c : CacheState) (k : String) : Option (List SearchResult) :=
  (c.entries.find? (fun e => e.1 == k)).map (fun e => e.2)

def cacheSetex (c : CacheState) (k : String) (v : List SearchResult) : CacheState :=
  CacheState.mk ((k, v) :: c.entries)

/-- One raw hit returned by the vector database: document text, metadata,
and the backend-defined distance.  `none` models a non-numeric distance
(the Python code guards with `isinstance(dist, (int, float))`). -/
structure RawHit where
  document : String
  meta : String
  dist : Option ℚ
deriving Repr, DecidableEq

/-- `float(1 - dist) if isinstance(dist, (int, float)) else 0.0`
from `VectorStore.search`. -/
def distToScore (dist : Option ℚ) : ℚ :=
  match dist with
  | some d => 1 - d
  | none => 0

/-- What the spec's words ask of the score conversion: `1 - distance`
clamped to `[0, 1]`.  Kept separate so the source-derived `distToScore`
can be compared against it. -/
def specClampedScore (d : ℚ) : ℚ :=
  min 1 (max 0 (1 - d))

structure SearchOutcome where
  results : List SearchResult
  cache : CacheState
  dbQueried : Bool
deriving Repr, DecidableEq

/-- `VectorStore.search(query, k)`: consult the cache under the key
`"query_" ++ query`; on a hit return the cached list unchanged, on a
miss query the database (`db`), convert each distance to a score,
cache the formatted list under the same key and return it.
`db` stands for the ChromaDB `collection.query` round trip with
`n_results = k`. -/
def vectorSearch (db : String → ℕ → List RawHit) (cache : CacheState)
    (query : String) (k : ℕ) : SearchOutcome :=
  let cacheKey := "query_" ++ query
  match cacheGet cache cacheKey with
  | some cached => SearchOutcome.mk cached cache false
  | none =>
    let searchResults := (db query k).map
      (fun h => SearchResult.mk h.document h.meta (distToScore h.dist))
    SearchOutcome.mk searchResults (cacheSetex cache cacheKey searchResults) true

/-! ## HybridRetriever (src/core/retrieval/hybrid_retrieval.py)

The Hugging Face tokenizer (`tok`) and the BM25 scorer from `rank_bm25`
(`bm25Score`, returning one score per indexed document, aligned to
document order) are external library calls, passed as parameters. -/

/-- A `{"document": ..., "score": ...}` dictionary, the shape used by
the sparse results, the fused results and the contexts. -/
structure ScoredDoc where
  document : String
  score : ℚ
deriving Repr, DecidableEq

/-- `self.documents` and `self.bm25` of `HybridRetriever`; `bm25` holds
the tokenized corpus handed to `BM25Okapi` and is `none` until
`index_documents` runs. -/
structure RetrieverState where
  documents : List String
  bm25 : Option (List (List String))
deriving Repr, DecidableEq

/-- Fresh `HybridRetriever(vector_store)`: no documents, no BM25 index. -/
def initialRetriever : RetrieverState :=
  RetrieverState.mk [] none

/-- `index_documents(documents)`: REPLACES `self.documents` with the
argument and rebuilds the BM25 index over the lowercased tokenized
argument alone. -/
def indexDocuments (tok : String → List String) (r : RetrieverState)
    (documents : List String) : RetrieverState :=
  let _ := r
  RetrieverState.mk documents (some (documents.map (fun doc => tok doc.toLower)))

/-- `1e-10`, the division-by-zero guard of `_safe_normalize_scores`. -/
def epsTiny : ℚ := 1 / 10 ^ 10

/-- `_safe_normalize_scores(scores, max_score, weight)`:
`np.clip(scores / max(max_score, 1e-10), 0, 1) * weight`
(empty input maps to an empty output). -/
def safeNormalizeScores (scores : List ℚ) (maxScore : ℚ) (weight : ℚ) : List ℚ :=
  if scores.isEmpty then []
  else
    let m := max maxScore epsTiny
    scores.map (fun s => min 1 (max 0 (s / m)) * weight)

/-- Python `max(l)` with a default for the empty list, for
`max(dense_scores) if dense_scores else 1.0`. -/
def listMaxD (l : List ℚ) (d : ℚ) : ℚ :=
  match l with
  | [] => d
  | x :: xs => xs.foldl max x

/-- `np.argsort(scores)`: the indices `0 .. n-1` ordered by ascending
score. -/
def argsortAsc (scores : List ℚ) : List ℕ :=
  (List.range scores.length).mergeSort
    (fun i j => decide (scores.getD i 0 ≤ scores.getD j 0))

/-- Python slice `l[-k:]`: the last `k` elements for `k > 0`, the whole
list for `k = 0`. -/
def pyLastK (l : List ℕ) (k : ℕ) : List ℕ :=
  if k = 0 then l else l.drop (l.length - k)

/-- `np.argsort(bm25_scores)[-k:][::-1]`: the top-`k` indices by
descending score. -/
def topSparseIndices (scores : List ℚ) (k : ℕ) : List ℕ :=
  (pyLastK (argsortAsc scores) k).reverse

/-- The sparse result list built from `self.documents` and the BM25
scores: `{"document": self.documents[i], "score": bm25_scores[i]}` for
each top index `i`. -/
def sparseResults (documents : List String) (scores : List ℚ) (k : ℕ) :
    List ScoredDoc :=
  (topSparseIndices scores k).map
    (fun i => ScoredDoc.mk (documents.getD i "") (scores.getD i 0))

/-- `combined_results[doc] = combined_results.get(doc, 0) + score` on a
Python dict modelled as an insertion-ordered association list. -/
def assocUpdate : List (String × ℚ) → String → ℚ → List (String × ℚ)
  | [], k, v => [(k, v)]
  | (k0, v0) :: rest, k, v =>
    if k0 = k then (k0, v0 + v) :: rest
    else (k0, v0) :: assocUpdate rest k v

/-- The body of `hybrid_search(query, k)` up to (but not including) the
enclosing `try/except`: dense search, BM25 scoring (an
`AttributeError` on `None` when `index_documents` has not run), safe
normalization with weights 0.7 / 0.3, fusion by document text, sort by
fused score descending, truncate to `k`.  The cache state is returned
in both arms because the dense search's cache write happens before the
failure point. -/
def hybridSearchCore (tok : String → List String)
    (bm25Score : List (List String) → List String → List ℚ)
    (db : String → ℕ → List RawHit) (cache : CacheState)
    (r : RetrieverState) (query : String) (k : ℕ) :
    CacheState × Except String (List ScoredDoc) :=
  let denseOut := vectorSearch db cache query k
  match r.bm25 with
  | none =>
    (denseOut.cache, Except.error "AttributeError: NoneType has no attribute get_scores")
  | some corpus =>
    let denseResults := denseOut.results
    let bm25Scores := bm25Score corpus (tok query.toLower)
    let sparse := sparseResults r.documents bm25Scores k
    let denseScores := denseResults.map (fun x => x.score)
    let sparseScores := sparse.map (fun x => x.score)
    let normDense := safeNormalizeScores denseScores (listMaxD denseScores 1) (7/10)
    let normSparse := safeNormalizeScores sparseScores (listMaxD sparseScores 1) (3/10)
    let afterDense := ((denseResults.map (fun x => x.document)).zip normDense).foldl
      (fun d p => assocUpdate d p.1 p.2) []
    let combined := ((sparse.map (fun x => x.document)).zip normSparse).foldl
      (fun d p => assocUpdate d p.1 p.2) afterDense
    let sortedResults := ((combined.mergeSort (fun a b => decide (b.2 ≤ a.2))).map
      (fun p => ScoredDoc.mk p.1 p.2)).take k
    (denseOut.cache, Except.ok sortedResults)

/-- `hybrid_search(query, k=5)` as the caller sees it: the `except`
clause catches every failure of the body, logs, and returns `[]`. -/
def hybridSearch (tok : String → List String)
    (bm25Score : List (List String) → List String → List ℚ)
    (db : String → ℕ → List RawHit) (cache : CacheState)
    (r : RetrieverState) (query : String) (k : ℕ) :
    List ScoredDoc × CacheState :=
  match hybridSearchCore tok bm25Score db cache r query k with
  | (c, Except.ok res) => (res, c)
  | (c, Except.error _) => ([], c)

/-! ## VectorStore.add_embeddings and the Chroma collection

A metadata record is either one supplied by the caller or the
`{"chunk_index": i}` record synthesized during length reconciliation.
The opportunistic Redis caching of embeddings (keys derived from
wall-clock ids) is not observable by any claim and is not modelled. -/

inductive MetaRecord where
  | given : String → MetaRecord
  | chunkIndexOnly : ℕ → MetaRecord
deriving Repr, DecidableEq

/-- The ChromaDB collection contents: `collection.add` appends. -/
structure VectorStoreState where
  collectionDocs : List String
  collectionMeta : List MetaRecord
deriving Repr, DecidableEq

/-- The length reconciliation of `add_embeddings`: nothing when the
lengths already match, truncate excess metadata, synthesize
`{"chunk_index": i}` records for missing tail entries. -/
def reconcileMetadata (md : List MetaRecord) (n : ℕ) : List MetaRecord :=
  if md.length = n then md
  else if md.length > n then md.take n
  else md ++ (List.range' md.length (n - md.length)).map MetaRecord.chunkIndexOnly

/-- `add_embeddings(texts, metadata=None)`.  Empty `texts` is a logged
no-op.  When `metadata is None` the default-synthesis list
comprehension evaluates the undefined name `import_time`, raising
`NameError`, which the `except` clause logs and re-raises.  Otherwise
the metadata list is reconciled to the text count and the tuples
are appended to the collection. -/
def addEmbeddings (vs : VectorStoreState) (texts : List String)
    (metadata : Option (List MetaRecord)) : Except String VectorStoreState :=
  if texts.isEmpty then Except.ok vs
  else
    match metadata with
    | none => Except.error "NameError: name import_time is not defined"
    | some md =>
      Except.ok (VectorStoreState.mk (vs.collectionDocs ++ texts)
        (vs.collectionMeta ++ reconcileMetadata md texts.length))

/-! ## QueryExpander.expand_query result (src/core/query/query_expander.py) -/

/-- The semantic payload of the dictionary `expand_query` returns:
the original query and the filtered expansion list (`expand_query`
inserts the original at position 0 when absent, then truncates to
`max_expansions`). -/
structure ExpandResult where
  originalQuery : String
  expansions : List String
deriving Repr, DecidableEq

/-- The `"expansions"` field as `expand_query` builds it from the
similarity-filtered variations:
`if query not in filtered: filtered.insert(0, query)` then
`filtered[:max_expansions]`. -/
def expandQueryExpansions (query : String) (filteredVariations : List String)
    (maxExpansions : ℕ) : List String :=
  (if query ∈ filteredVariations then filteredVariations
   else query :: filteredVariations).take maxExpansions

/-- The keys, in insertion order, of the dict literal `expand_query`
returns on its normal path:
`{"original_query": ..., "expansions": [...], "analysis": {...},
"metadata": {...}}`. -/
def expandQueryDictKeys : List String :=
  ["original_query", "expansions", "analysis", "metadata"]

/-- Iterating a Python dict (`for query in expanded_queries` in
`_get_contexts`) yields its KEYS in insertion order — not the
expansion texts stored under the `"expansions"` key. -/
def pyDictIterKeys (e : ExpandResult) : List String :=
  let _ := e
  expandQueryDictKeys

/-! ## RAGEngine._get_contexts (src/core/rag/rag_engine.py) -/

/-- The list-comprehension dedup of `_get_contexts`: keep a context iff
its document text was not seen before (first occurrence wins). -/
def dedupKeepFirst : List ScoredDoc → List String → List ScoredDoc
  | [], _ => []
  | c :: cs, seen =>
    if c.document ∈ seen then dedupKeepFirst cs seen
    else c :: dedupKeepFirst cs (c.document :: seen)

structure GetContextsOut where
  contexts : List ScoredDoc
  cache : CacheState
  searched : List String
deriving Repr, DecidableEq

/-- `_get_contexts(question, max_contexts=3)`: iterate over the value
returned by `expand_query` (a dict, hence over its keys), call
`hybrid_search` for each iterated string with the default `k = 5`,
extend `all_contexts` with each non-empty result, dedup by document
text keeping the first occurrence, stable-sort by score descending,
truncate to `max_contexts`.  `searched` records the successive
arguments passed to `hybrid_search`. -/
def getContexts (tok : String → List String)
    (bm25Score : List (List String) → List String → List ℚ)
    (db : String → ℕ → List RawHit) (cache : CacheState)
    (r : RetrieverState) (expanded : ExpandResult) (maxContexts : ℕ) :
    GetContextsOut :=
  let queries := pyDictIterKeys expanded
  let step := queries.foldl
    (fun (acc : List ScoredDoc × CacheState) q =>
      let out := hybridSearch tok bm25Score db acc.2 r q 5
      (acc.1 ++ out.1, out.2))
    ([], cache)
  let uniqueContexts :=
    (((dedupKeepFirst step.1 []).mergeSort
      (fun a b => decide (b.score ≤ a.score))).take maxContexts)
  GetContextsOut.mk uniqueContexts step.2 queries

/-! ## OllamaClient.generate temperature plumbing
(src/core/ollama/ollama_client.py) -/

structure OllamaModelConfig where
  name : String
  temperature : ℚ
  topP : ℚ
  topK : ℕ
  repeatPenalty : ℚ
deriving Repr, DecidableEq

/-- The `OllamaModelConfig` defaults (`OLLAMA_TEMPERATURE` defaults to
`"0.7"`). -/
def defaultOllamaConfig : OllamaModelConfig :=
  OllamaModelConfig.mk "llama3.2:3b" (7/10) (9/10) 40 (11/10)

/-- Python's `temperature or self.model_config.temperature`: `None`
falls back, and so does `0.0` (falsy). -/
def pyOrTemperature (argTemp : Option ℚ) (cfgTemp : ℚ) : ℚ :=
  match argTemp with
  | none => cfgTemp
  | some t => if t = 0 then cfgTemp else t

/-- The `"options"` object of the `generate` request payload. -/
structure OllamaOptions where
  temperature : ℚ
  topP : ℚ
  topK : ℕ
  repeatPenalty : ℚ
deriving Repr, DecidableEq

/-- The options `generate(prompt, temperature=argTemp, ...)` puts in
its payload. -/
def generatePayloadOptions (cfg : OllamaModelConfig) (argTemp : Option ℚ) :
    OllamaOptions :=
  OllamaOptions.mk (pyOrTemperature argTemp cfg.temperature) cfg.topP cfg.topK
    cfg.repeatPenalty

/-! ## PromptTemplate (src/core/prompt/prompt_template.py) -/

def fewShotExamples : List (String × String × String) :=
  [("The Earth revolves around the Sun.",
    "What is the primary celestial body that the Earth revolves around?",
    "According to the context, the Earth revolves around the Sun."),
   ("Water is a compound composed of two hydrogen atoms and one oxygen atom.",
    "What are the components of water?",
    "The context states that water is composed of two hydrogen atoms and one oxygen atom.")]

def systemPromptText : String :=
  "\n    You are a highly informative and comprehensive AI assistant. \n    Given the following context, answer the question accurately and concisely. \n    Cite specific portions of the context to support your answer whenever possible. \n    If the answer cannot be found within the provided context, state so explicitly.\n    "

/-- `PromptTemplate.format_prompt(context, question)`. -/
def formatPrompt (context question : String) : String :=
  let fewShot := String.intercalate "\n\n" (fewShotExamples.map
    (fun ex => "**Context:** " ++ ex.1 ++ "\n**Question:** " ++ ex.2.1 ++
      "\n**Answer:** " ++ ex.2.2))
  systemPromptText ++ "\n\n" ++ fewShot ++ "\n\n**Context:** " ++ context ++
    "\n\n**Question:** " ++ question ++ "\n\n**Answer:**"

/-! ## RAGEngine: temperature adaptation, metrics, answer_question -/

structure Metrics where
  avgResponseTime : List ℚ
  avgRelevanceScore : List ℚ
  tempAdjustments : List ℚ
  totalDocuments : ℕ
  failedQueries : ℕ
  successfulQueries : ℕ
deriving Repr, DecidableEq

def initialMetrics : Metrics :=
  Metrics.mk [] [] [] 0 0 0

/-- The temperature update of `_adjust_temperature(relevance_score)`:
decrease by 0.1 floored at 0.1 when the score is below 0.5, increase
by 0.1 capped at 1.0 when above 0.8, otherwise unchanged. -/
def adjustTemperatureValue (t : ℚ) (relevanceScore : ℚ) : ℚ :=
  if relevanceScore < 1/2 then max (1/10) (t - 1/10)
  else if relevanceScore > 4/5 then min 1 (t + 1/10)
  else t

structure Grades where
  relevanceScore : ℚ
  confidenceScore : ℚ
deriving Repr, DecidableEq

/-- The dictionary `answer_question` returns.  The canned empty-context
response carries no `response_time` key, modelled as `none`. -/
structure RAGResponse where
  question : String
  answer : String
  error : Option String
  relevanceScore : Option ℚ
  confidenceScore : Option ℚ
  contexts : Option (List ScoredDoc)
  responseTime : Option ℚ
deriving Repr, DecidableEq

structure AnswerOut where
  response : RAGResponse
  temperature : ℚ
  metrics : Metrics
  generateCalled : Bool
  generateOptions : Option OllamaOptions
deriving Repr, DecidableEq

/-- `answer_question(question)` given the contexts `_get_contexts`
produced.  `backend` is the Ollama HTTP round trip (already unwrapping
`request.get("response", ...)` to the answer text), `grader` the
`AnswerGrader.grade_answer` collaborator, `responseTime` the measured
wall-clock delta.  When the contexts are empty the failed-query
counter is incremented and the canned response returned; otherwise the
prompt is assembled, `generate(prompt)` is called — with NO temperature
argument — the answer graded, the temperature adapted and appended to
the history, and the metrics updated.  `generateOptions` exposes the
payload options of the `generate` call (`none` when no call happened). -/
def answerQuestion (cfg : OllamaModelConfig)
    (backend : String → OllamaOptions → String)
    (grader : String → String → List ScoredDoc → Grades)
    (temperature : ℚ) (metrics : Metrics)
    (question : String) (contexts : List ScoredDoc) (responseTime : ℚ) :
    AnswerOut :=
  if contexts.isEmpty then
    AnswerOut.mk
      (RAGResponse.mk question
        "I couldn't find relevant information to answer your question."
        (some "No relevant contexts found") (some 0) (some 0) (some []) none)
      temperature
      { metrics with failedQueries := metrics.failedQueries + 1 }
      false none
  else
    let contextPrompt := String.intercalate "\n" (contexts.map (fun c => c.document))
    let prompt := formatPrompt contextPrompt question
    let options := generatePayloadOptions cfg none
    let answer := backend prompt options
    let grades := grader question answer contexts
    let t2 := adjustTemperatureValue temperature grades.relevanceScore
    let m2 := { metrics with
      tempAdjustments := metrics.tempAdjustments ++ [t2],
      avgResponseTime := metrics.avgResponseTime ++ [responseTime],
      avgRelevanceScore := metrics.avgRelevanceScore ++ [grades.relevanceScore],
      successfulQueries := metrics.successfulQueries + 1 }
    AnswerOut.mk
      (RAGResponse.mk question answer none (some grades.relevanceScore)
        (some grades.confidenceScore) (some contexts) (some responseTime))
      t2 m2 true (some options)

/-- `process_document(pdf_path)` given the `(chunks, metadata)` pair the
document-processing collaborator extracted: empty chunks is a warned
zero-count no-op; otherwise `add_embeddings` runs (its failure
propagates), the retriever re-indexes on the chunks alone, and the
document counter is incremented.  Returns the new vector-store state,
retriever state, document counter and the returned chunk count. -/
def processDocument (tok : String → List String)
    (vs : VectorStoreState) (r : RetrieverState) (totalDocuments : ℕ)
    (chunks : List String) (metadata : Option (List MetaRecord)) :
    Except String (VectorStoreState × RetrieverState × ℕ × ℕ) :=
  if chunks.isEmpty then Except.ok (vs, r, totalDocuments, 0)
  else
    match addEmbeddings vs chunks metadata with
    | Except.error e => Except.error e
    | Except.ok vs2 =>
      Except.ok (vs2, indexDocuments tok r chunks, totalDocuments + 1, chunks.length)

/-! ## Shared helper lemmas -/

lemma adjustTemperatureValue_bounds (t r : ℚ) (h1 : 1/10 ≤ t) (h2 : t ≤ 1) :
    1/10 ≤ adjustTemperatureValue t r ∧ adjustTemperatureValue t r ≤ 1 := by
  unfold adjustTemperatureValue
  split
  · exact ⟨le_max_left _ _, max_le (by norm_num) (by linarith)⟩
  · split
    · exact ⟨le_min (by norm_num) (by linarith), min_le_left _ _⟩
    · exact ⟨h1, h2⟩

lemma foldl_adjustTemperatureValue_bounds (rs : List ℚ) :
    ∀ t : ℚ, 1/10 ≤ t → t ≤ 1 →
      1/10 ≤ rs.foldl adjustTemperatureValue t ∧
        rs.foldl adjustTemperatureValue t ≤ 1 := by
  induction rs with
  | nil => intro t h1 h2; exact ⟨h1, h2⟩
  | cons r rs ih =>
    intro t h1 h2
    have h := adjustTemperatureValue_bounds t r h1 h2
    exact ih _ h.1 h.2

lemma getD_map_of_lt {α β : Type} (f : α → β) (l : List α) (i : ℕ)
    (h : i < l.length) (d : β) (d' : α) :
    (l.map f).getD i d = f (l.getD i d') := by
  induction l generalizing i with
  | nil => simp at h
  | cons a l ih =>
    cases i with
    | zero => rfl
    | succ n =>
      simp only [List.map_cons, List.getD_cons_succ]
      exact ih n (by simpa using h)

/-! ## Claim theorems -/

/-- Claim C3: one `_adjust_temperature` step yields `max(0.1, t - 0.1)`
when the relevance score is below 0.5, `min(1.0, t + 0.1)` when it is
above 0.8, and exactly `t` when it lies in `[0.5, 0.8]`; and any
sequence of adaptation steps starting in `[0.1, 1.0]` keeps the
temperature in `[0.1, 1.0]`. -/
theorem adjustTemperature_step_and_bounds (r t : ℚ) (ht : 1/10 ≤ t ∧ t ≤ 1) :
    (r < 1/2 → adjustTemperatureValue t r = max (1/10) (t - 1/10)) ∧
    (r > 4/5 → adjustTemperatureValue t r = min 1 (t + 1/10)) ∧
    (1/2 ≤ r → r ≤ 4/5 → adjustTemperatureValue t r = t) ∧
    (∀ rs : List ℚ,
      1/10 ≤ rs.foldl adjustTemperatureValue t ∧
        rs.foldl adjustTemperatureValue t ≤ 1) := by
  refine ⟨?_, ?_, ?_, ?_⟩
  · intro h; unfold adjustTemperatureValue; rw [if_pos h]
  · intro h
    have h1 : ¬ (r < 1/2) := by linarith
    unfold adjustTemperatureValue; rw [if_neg h1, if_pos h]
  · intro hl hr
    have h1 : ¬ (r < 1/2) := by linarith
    have h2 : ¬ (r > 4/5) := by linarith
    unfold adjustTemperatureValue; rw [if_neg h1, if_neg h2]
  · intro rs; exact foldl_adjustTemperatureValue_bounds rs t ht.1 ht.2

/-- Witness for C3 at the spec's Scenario D numbers: relevance 0.9 at
temperature 0.7 takes the capped-increase branch. -/
theorem adjustTemperature_step_and_bounds_witness :
    adjustTemperatureValue (7/10) (9/10) = min 1 (7/10 + 1/10) :=
  (adjustTemperature_step_and_bounds (9/10) (7/10) (by norm_num)).2.1 (by norm_num)

/-- Claim C5: `add_embeddings` with `metadata=None` and non-empty texts
does NOT complete normally — the default-metadata synthesis evaluates
the undefined name `import_time` and the call raises. -/
theorem addEmbeddings_default_metadata_raises (vs : VectorStoreState)
    (texts : List String) (h : texts ≠ []) :
    addEmbeddings vs texts none =
      Except.error "NameError: name import_time is not defined" := by
  simp [addEmbeddings, h]

/-- Witness for C5 at `texts = ["hello"]`. -/
theorem addEmbeddings_default_metadata_raises_witness :
    addEmbeddings (VectorStoreState.mk [] []) ["hello"] none =
      Except.error "NameError: name import_time is not defined" :=
  addEmbeddings_default_metadata_raises (VectorStoreState.mk [] []) ["hello"]
    (by decide)

/-- Counterexample to claim C6: on a fresh retriever (no
`index_documents` call) `hybrid_search` RETURNS — the empty list — it
does not propagate any error; internally the failure is a plain
`AttributeError` on `None`, not an `IndexNotReadyError` (no such error
exists in the code). -/
theorem hybridSearch_before_index_cex :
    (hybridSearch (fun s => [s]) (fun _ _ => []) (fun _ _ => [])
      (CacheState.mk []) initialRetriever "any query" 5).1 = [] ∧
    (hybridSearchCore (fun s => [s]) (fun _ _ => []) (fun _ _ => [])
      (CacheState.mk []) initialRetriever "any query" 5).2 =
      Except.error "AttributeError: NoneType has no attribute get_scores" :=
  ⟨rfl, rfl⟩

/-- Claim C6 as amended: invoking `hybrid_search` before any
`index_documents` call returns an empty result list (the internal
`AttributeError` is caught by the blanket `except`), with the dense
search's cache write retained. -/
theorem hybridSearch_before_index_returns_empty (tok : String → List String)
    (bm25Score : List (List String) → List String → List ℚ)
    (db : String → ℕ → List RawHit) (cache : CacheState)
    (r : RetrieverState) (q : String) (k : ℕ) (h : r.bm25 = none) :
    hybridSearch tok bm25Score db cache r q k =
      ([], (vectorSearch db cache q k).cache) ∧
    (hybridSearchCore tok bm25Score db cache r q k).2 =
      Except.error "AttributeError: NoneType has no attribute get_scores" := by
  constructor
  · simp [hybridSearch, hybridSearchCore, h]
  · simp [hybridSearchCore, h]

/-- Witness for the amended C6 on a fresh retriever. -/
theorem hybridSearch_before_index_returns_empty_witness :
    hybridSearch (fun s => [s]) (fun _ _ => []) (fun _ _ => [])
      (CacheState.mk []) initialRetriever "q" 5 =
      ([], (vectorSearch (fun _ _ => []) (CacheState.mk []) "q" 5).cache) :=
  (hybridSearch_before_index_returns_empty (fun s => [s]) (fun _ _ => [])
    (fun _ _ => []) (CacheState.mk []) initialRetriever "q" 5 rfl).1

/-- Claim C8: with empty contexts, `answer_question` increments the
failed-query counter and returns the canned no-information response
with relevance and confidence exactly 0 and an empty context list,
without calling the inference backend and without raising. -/
theorem answerQuestion_empty_contexts (cfg : OllamaModelConfig)
    (backend : String → OllamaOptions → String)
    (grader : String → String → List ScoredDoc → Grades)
    (t : ℚ) (m : Metrics) (q : String) (rt : ℚ) :
    (answerQuestion cfg backend grader t m q [] rt).response =
      RAGResponse.mk q
        "I couldn't find relevant information to answer your question."
        (some "No relevant contexts found") (some 0) (some 0) (some []) none ∧
    (answerQuestion cfg backend grader t m q [] rt).metrics.failedQueries =
      m.failedQueries + 1 ∧
    (answerQuestion cfg backend grader t m q [] rt).generateCalled = false ∧
    (answerQuestion cfg backend grader t m q [] rt).temperature = t ∧
    (answerQuestion cfg backend grader t m q [] rt).metrics.successfulQueries =
      m.successfulQueries := by
  simp [answerQuestion]

/-- Counterexample to claim C4: for a database distance of 2 the
returned score is `1 - 2 = -1`, while the claimed clamp to `[0, 1]`
would give 0 — `search` applies no clamping. -/
theorem vectorSearch_clamped_score_cex :
    (vectorSearch (fun _ _ => [RawHit.mk "doc" "m" (some 2)])
      (CacheState.mk []) "q" 1).results = [SearchResult.mk "doc" "m" (-1)] ∧
    specClampedScore 2 = 0 ∧ ((-1 : ℚ) ≠ 0) := by
  refine ⟨?_, ?_, by norm_num⟩
  · simp [vectorSearch, cacheGet, distToScore]
    norm_num
  · simp [specClampedScore]

/-- Claim C4 as amended: on a cache miss every result entry's score is
exactly `1 - d` for a numeric distance `d` — with no clamping — and 0
for a non-numeric distance. -/
theorem vectorSearch_score_unclamped (db : String → ℕ → List RawHit)
    (cache : CacheState) (q : String) (k : ℕ)
    (hmiss : cacheGet cache ("query_" ++ q) = none) :
    (vectorSearch db cache q k).results.length = (db q k).length ∧
    (∀ i, i < (db q k).length → ∀ d : ℚ,
      ((db q k).getD i (RawHit.mk "" "" none)).dist = some d →
      ((vectorSearch db cache q k).results.getD i (SearchResult.mk "" "" 37)).score
        = 1 - d) ∧
    (∀ i, i < (db q k).length →
      ((db q k).getD i (RawHit.mk "" "" none)).dist = none →
      ((vectorSearch db cache q k).results.getD i (SearchResult.mk "" "" 37)).score
        = 0) := by
  have hres : (vectorSearch db cache q k).results =
      (db q k).map
        (fun h => SearchResult.mk h.document h.meta (distToScore h.dist)) := by
    simp [vectorSearch, hmiss]
  refine ⟨by simp [hres], ?_, ?_⟩
  · intro i hi d hd
    rw [hres, getD_map_of_lt _ _ i hi _ (RawHit.mk "" "" none)]
    show distToScore ((db q k).getD i (RawHit.mk "" "" none)).dist = 1 - d
    rw [hd]
    rfl
  · intro i hi hd
    rw [hres, getD_map_of_lt _ _ i hi _ (RawHit.mk "" "" none)]
    show distToScore ((db q k).getD i (RawHit.mk "" "" none)).dist = 0
    rw [hd]
    rfl

/-- Witness for the amended C4 at distance 2. -/
theorem vectorSearch_score_unclamped_witness :
    ((vectorSearch (fun _ _ => [RawHit.mk "a" "" (some 2)])
      (CacheState.mk []) "w" 1).results.getD 0 (SearchResult.mk "" "" 37)).score
      = 1 - 2 :=
  (vectorSearch_score_unclamped (fun _ _ => [RawHit.mk "a" "" (some 2)])
    (CacheState.mk []) "w" 1 rfl).2.1 0 (by decide) 2 rfl

/-- Counterexample to claim C7: for the non-empty score list `[0]` and
weight `0.3` the maximal raw score (0) normalizes to 0, not to the
weight. -/
theorem safeNormalizeScores_max_to_weight_cex :
    safeNormalizeScores [0] (listMaxD [0] 1) (3/10) = [0] ∧
    listMaxD [0] 1 = 0 ∧ ((0 : ℚ) ≠ 3/10) := by
  refine ⟨?_, by simp [listMaxD], by norm_num⟩
  simp [safeNormalizeScores, listMaxD]

/-- Claim C7 as amended: for a non-negative weight `w` every normalized
score lies in `[0, w]`; and provided the maximal raw score is at least
`ε = 1e-10`, the position holding the maximal raw score normalizes to
exactly `w`. -/
theorem safeNormalizeScores_bounds (scores : List ℚ) (w : ℚ) (hw : 0 ≤ w) :
    (∀ x ∈ safeNormalizeScores scores (listMaxD scores 1) w, 0 ≤ x ∧ x ≤ w) ∧
    (epsTiny ≤ listMaxD scores 1 →
      ∀ i, i < scores.length → scores.getD i 0 = listMaxD scores 1 →
        (safeNormalizeScores scores (listMaxD scores 1) w).getD i 0 = w) := by
  have heps : (0 : ℚ) < epsTiny := by norm_num [epsTiny]
  constructor
  · intro x hx
    unfold safeNormalizeScores at hx
    by_cases hsc : scores.isEmpty
    · simp [hsc] at hx
    · simp only [hsc, if_neg, Bool.false_eq_true, ite_false] at hx
      obtain ⟨s, hs, rfl⟩ := List.mem_map.mp hx
      have hnn : (0 : ℚ) ≤ min 1 (max 0 (s / max (listMaxD scores 1) epsTiny)) :=
        le_min (by norm_num) (le_max_left 0 _)
      have hle : min 1 (max 0 (s / max (listMaxD scores 1) epsTiny)) ≤ 1 :=
        min_le_left _ _
      exact ⟨mul_nonneg hnn hw, mul_le_of_le_one_left hw hle⟩
  · intro he i hi hmax
    have hne : scores.isEmpty = false := by
      cases scores with
      | nil => simp at hi
      | cons a l => rfl
    have hMpos : (0 : ℚ) < listMaxD scores 1 := lt_of_lt_of_le heps he
    have hmx : max (listMaxD scores 1) epsTiny = listMaxD scores 1 := max_eq_left he
    unfold safeNormalizeScores
    rw [hne]
    simp only [Bool.false_eq_true, ite_false]
    rw [getD_map_of_lt _ _ i hi _ 0, hmax, hmx, div_self (ne_of_gt hMpos)]
    norm_num

/-- Witness for the amended C7: in `[2, 1]` with weight 0.7 the maximal
score 2 normalizes to exactly 0.7. -/
theorem safeNormalizeScores_bounds_witness :
    (safeNormalizeScores [2, 1] (listMaxD [2, 1] 1) (7/10)).getD 0 0 = 7/10 :=
  (safeNormalizeScores_bounds [2, 1] (7/10) (by norm_num)).2
    (by norm_num [listMaxD, epsTiny]) 0 (by norm_num) (by norm_num [listMaxD])

lemma cacheGet_cacheSetex (c : CacheState) (k : String) (v : List SearchResult) :
    cacheGet (cacheSetex c k v) k = some v := by
  simp [cacheGet, cacheSetex]

/-- Claim C9: the search cache key is derived from the query string
alone.  After a cache-miss `search(query, k1)`, a `search(query, k2)`
with any `k2` within the TTL returns the first call's cached list —
whose length is bounded by `k1`, not `k2` — without querying the
vector database. -/
theorem vectorSearch_cache_ignores_k (db : String → ℕ → List RawHit)
    (c : CacheState) (q : String) (k1 k2 : ℕ)
    (hmiss : cacheGet c ("query_" ++ q) = none)
    (hdb : ∀ q' k', (db q' k').length ≤ k') :
    (vectorSearch db (vectorSearch db c q k1).cache q k2).results =
      (vectorSearch db c q k1).results ∧
    (vectorSearch db (vectorSearch db c q k1).cache q k2).dbQueried = false ∧
    (vectorSearch db (vectorSearch db c q k1).cache q k2).cache =
      (vectorSearch db c q k1).cache ∧
    (vectorSearch db c q k1).results.length ≤ k1 ∧
    (vectorSearch db c q k1).dbQueried = true := by
  have hfst : vectorSearch db c q k1 =
      SearchOutcome.mk
        ((db q k1).map
          (fun h => SearchResult.mk h.document h.meta (distToScore h.dist)))
        (cacheSetex c ("query_" ++ q)
          ((db q k1).map
            (fun h => SearchResult.mk h.document h.meta (distToScore h.dist))))
        true := by
    simp [vectorSearch, hmiss]
  rw [hfst]
  refine ⟨?_, ?_, ?_, ?_, rfl⟩
  · simp [vectorSearch, cacheGet_cacheSetex]
  · simp [vectorSearch, cacheGet_cacheSetex]
  · simp [vectorSearch, cacheGet_cacheSetex]
  · simpa using hdb q k1

/-- Witness for C9 with `k1 = 1` and `k2 = 3` against a database
returning `k` hits per query. -/
theorem vectorSearch_cache_ignores_k_witness :
    (vectorSearch (fun _ k => (List.range k).map
        (fun i => RawHit.mk (toString i) "" (some (1/2))))
      (vectorSearch (fun _ k => (List.range k).map
        (fun i => RawHit.mk (toString i) "" (some (1/2))))
        (CacheState.mk []) "hello" 1).cache "hello" 3).results =
    (vectorSearch (fun _ k => (List.range k).map
        (fun i => RawHit.mk (toString i) "" (some (1/2))))
      (CacheState.mk []) "hello" 1).results :=
  (vectorSearch_cache_ignores_k
    (fun _ k => (List.range k).map
      (fun i => RawHit.mk (toString i) "" (some (1/2))))
    (CacheState.mk []) "hello" 1 3 rfl
    (fun q' k' => by simp)).1

/-- Claim C2 evaluated against the code: `answer_question` calls
`generate(prompt)` with no temperature argument, so the temperature in
the request payload is the client configuration's default, and in
particular NOT the engine's adapted temperature whenever the two
differ. -/
theorem answerQuestion_generate_config_temperature (cfg : OllamaModelConfig)
    (backend : String → OllamaOptions → String)
    (grader : String → String → List ScoredDoc → Grades)
    (t : ℚ) (m : Metrics) (q : String) (contexts : List ScoredDoc) (rt : ℚ)
    (h : contexts ≠ []) :
    ((answerQuestion cfg backend grader t m q contexts rt).generateOptions.map
      (fun o => o.temperature)) = some cfg.temperature ∧
    (t ≠ cfg.temperature →
      ((answerQuestion cfg backend grader t m q contexts rt).generateOptions.map
        (fun o => o.temperature)) ≠ some t) := by
  have hne : contexts.isEmpty = false := by
    cases contexts with
    | nil => exact absurd rfl h
    | cons a l => rfl
  constructor
  · simp [answerQuestion, hne, generatePayloadOptions, pyOrTemperature]
  · intro hneq
    simp [answerQuestion, hne, generatePayloadOptions, pyOrTemperature]
    exact fun hc => hneq hc.symm

/-- Witness for the C2 evaluation: with the engine temperature adapted
to 0.3 and the client default 0.7, the backend does not receive 0.3. -/
theorem answerQuestion_generate_config_temperature_witness :
    ((answerQuestion defaultOllamaConfig (fun _ _ => "ans")
      (fun _ _ _ => Grades.mk 1 1) (3/10) initialMetrics "q"
      [ScoredDoc.mk "d" 1] 0).generateOptions.map
        (fun o => o.temperature)) ≠ some (3/10) :=
  (answerQuestion_generate_config_temperature defaultOllamaConfig
    (fun _ _ => "ans") (fun _ _ _ => Grades.mk 1 1) (3/10) initialMetrics "q"
    [ScoredDoc.mk "d" 1] 0 (by decide)).2 (by norm_num [defaultOllamaConfig])

/-- Claim C1 evaluated against the code: `_get_contexts` iterates over
the dictionary returned by `expand_query`, so `hybrid_search` is
invoked on the four KEY strings `"original_query"`, `"expansions"`,
`"analysis"`, `"metadata"` — never on the members of the expansion set,
not even on the original question, although the question is a member
of the `"expansions"` value. -/
theorem getContexts_iterates_dict_keys_cex :
    (getContexts (fun s => [s]) (fun _ _ => []) (fun _ _ => [])
      (CacheState.mk []) initialRetriever
      (ExpandResult.mk "What is RAG?" ["What is RAG?", "Explain RAG"]) 3).searched
      = ["original_query", "expansions", "analysis", "metadata"] ∧
    "What is RAG?" ∈
      (ExpandResult.mk "What is RAG?" ["What is RAG?", "Explain RAG"]).expansions ∧
    "What is RAG?" ∉
      (getContexts (fun s => [s]) (fun _ _ => []) (fun _ _ => [])
        (CacheState.mk []) initialRetriever
        (ExpandResult.mk "What is RAG?" ["What is RAG?", "Explain RAG"]) 3).searched :=
  ⟨rfl, by decide, by decide⟩

lemma addEmbeddings_some (vs : VectorStoreState) (texts : List String)
    (md : List MetaRecord) (h : texts ≠ []) :
    addEmbeddings vs texts (some md) =
      Except.ok (VectorStoreState.mk (vs.collectionDocs ++ texts)
        (vs.collectionMeta ++ reconcileMetadata md texts.length)) := by
  simp [addEmbeddings, h]

lemma processDocument_some (tok : String → List String) (vs : VectorStoreState)
    (r : RetrieverState) (n : ℕ) (chunks : List String) (md : List MetaRecord)
    (h : chunks ≠ []) :
    processDocument tok vs r n chunks (some md) =
      Except.ok (VectorStoreState.mk (vs.collectionDocs ++ chunks)
          (vs.collectionMeta ++ reconcileMetadata md chunks.length),
        indexDocuments tok r chunks, n + 1, chunks.length) := by
  simp [processDocument, h, addEmbeddings_some vs chunks md h]

lemma mem_topSparseIndices_lt (scores : List ℚ) (k i : ℕ)
    (h : i ∈ topSparseIndices scores k) : i < scores.length := by
  unfold topSparseIndices pyLastK at h
  rw [List.mem_reverse] at h
  have h2 : i ∈ argsortAsc scores := by
    by_cases hk : k = 0
    · simpa [hk] using h
    · rw [if_neg hk] at h
      exact List.drop_subset _ _ h
  unfold argsortAsc at h2
  have h3 : i ∈ List.range scores.length :=
    ((List.mergeSort_perm _ _).mem_iff).mp h2
  exact List.mem_range.mp h3

lemma sparseResults_doc_mem (documents : List String) (scores : List ℚ)
    (k : ℕ) (hlen : scores.length = documents.length) :
    ∀ sd ∈ sparseResults documents scores k, sd.document ∈ documents := by
  intro sd hsd
  obtain ⟨i, hi, rfl⟩ := List.mem_map.mp hsd
  have hlt : i < documents.length := hlen ▸ mem_topSparseIndices_lt scores k i hi
  show documents.getD i "" ∈ documents
  rw [List.getD_eq_getElem _ _ hlt]
  exact List.getElem_mem _

/-- Claim C10: `index_documents` replaces the retriever's document list
and BM25 corpus with its argument, so after a second `process_document`
the sparse arm draws its candidates from the second document's chunks
alone, while the vector-store collection retains the chunks of both
documents. -/
theorem processDocument_replaces_sparse_index (tok : String → List String)
    (bm25Score : List (List String) → List String → List ℚ)
    (vs : VectorStoreState) (r : RetrieverState) (n : ℕ)
    (chunks1 : List String) (md1 : List MetaRecord)
    (chunks2 : List String) (md2 : List MetaRecord)
    (h1 : chunks1 ≠ []) (h2 : chunks2 ≠ [])
    (halign : ∀ corpus tq, (bm25Score corpus tq).length = corpus.length) :
    ∀ vs1 r1 n1 c1,
      processDocument tok vs r n chunks1 (some md1) =
        Except.ok (vs1, r1, n1, c1) →
    ∀ vs2 r2 n2 c2,
      processDocument tok vs1 r1 n1 chunks2 (some md2) =
        Except.ok (vs2, r2, n2, c2) →
      r2.documents = chunks2 ∧
      r2.bm25 = some (chunks2.map (fun d => tok d.toLower)) ∧
      vs2.collectionDocs = vs.collectionDocs ++ chunks1 ++ chunks2 ∧
      ∀ (q : String) (k : ℕ), ∀ sd ∈ sparseResults r2.documents
          (bm25Score (chunks2.map (fun d => tok d.toLower)) (tok q.toLower)) k,
        sd.document ∈ chunks2 := by
  intro vs1 r1 n1 c1 hp1 vs2 r2 n2 c2 hp2
  rw [processDocument_some tok vs r n chunks1 md1 h1] at hp1
  injection hp1 with hp1
  simp only [Prod.mk.injEq] at hp1
  obtain ⟨hvs1, hr1, hn1, hc1⟩ := hp1
  subst hvs1; subst hr1; subst hn1; subst hc1
  rw [processDocument_some tok _ _ _ chunks2 md2 h2] at hp2
  injection hp2 with hp2
  simp only [Prod.mk.injEq] at hp2
  obtain ⟨hvs2, hr2, hn2, hc2⟩ := hp2
  subst hvs2; subst hr2; subst hn2; subst hc2
  refine ⟨rfl, rfl, rfl, ?_⟩
  intro q k sd hsd
  have hdocs : (indexDocuments tok (indexDocuments tok r chunks1) chunks2).documents
      = chunks2 := rfl
  rw [hdocs] at hsd
  exact sparseResults_doc_mem chunks2 _ k
    (by rw [halign, List.length_map]) sd hsd

/-- Witness for C10: after ingesting `["a"]` and then `["b"]`, the
retriever's document list is `["b"]` alone. -/
theorem processDocument_replaces_sparse_index_witness :
    (indexDocuments (fun s => [s])
      (indexDocuments (fun s => [s]) initialRetriever ["a"]) ["b"]).documents
      = ["b"] :=
  (processDocument_replaces_sparse_index (fun s => [s])
    (fun corpus _ => corpus.map (fun _ => 0))
    (VectorStoreState.mk [] []) initialRetriever 0 ["a"] [] ["b"] []
    (by decide) (by decide) (fun corpus tq => by simp)
    _ _ _ _ (processDocument_some _ _ _ _ _ _ (by decide))
    _ _ _ _ (processDocument_some _ _ _ _ _ _ (by decide))).1

end LlamaRag
